import Mathlib

/-
Shallow embedding of the zeus-ai-api key-management core (main.py, models.py).
Timestamps are naive UTC seconds since the epoch; calendar dates are day
numbers. The host timezone enters as an explicit offset in seconds, because
main.py mixes datetime.utcnow (UTC) with date.today (host-local date).
-/

/-- Daily request limit per key (main.py, DAILY_REQUEST_LIMIT = 1000). -/
def DAILY_REQUEST_LIMIT : Nat := 1000

/-- Key expiration window in days (main.py, KEY_EXPIRATION_DAYS = 30). -/
def KEY_EXPIRATION_DAYS : Nat := 30

/-- Seconds in one calendar day. -/
def secondsPerDay : Int := 86400

/-- A persisted key record (models.py, class APIKey). The id column is an
internal autoincrement surrogate and never consulted by the policy code, so
it is omitted; lookup is by the unique key column. -/
structure APIKey where
  key : String
  created_at : Int
  last_request_date : Option Int
  request_count_today : Nat
deriving Repr, DecidableEq

/-- The persisted store: the api_keys table as a list of records. -/
abbrev KeyStore := List APIKey

/-- An HTTP error response, as raised by fastapi HTTPException. -/
structure HTTPException where
  status_code : Nat
  detail : String
deriving Repr, DecidableEq

/-- Response body of the ask endpoint (main.py, QueryResponse). -/
structure QueryResponse where
  response : String
deriving Repr, DecidableEq

/-- Response body of the create-key endpoint (main.py, KeyCreationResponse). -/
structure KeyCreationResponse where
  api_key : String
  detail : String
deriving Repr, DecidableEq

/-- The host-local calendar date, as date.today computes it in main.py:
the UTC instant shifted by the host timezone offset, floored to whole days. -/
def localToday (nowUtc tzOffset : Int) : Int := (nowUtc + tzOffset).fdiv secondsPerDay

/-- The UTC calendar date of an instant, i.e. what utcnow().date() would be. -/
def utcToday (nowUtc : Int) : Int := nowUtc.fdiv secondsPerDay

/-- Python truthiness of an optional string: None and the empty string are
falsy. -/
def truthy : Option String → Bool
  | none => false
  | some s => s != ""

/-- The Python expression a or b on optional strings (main.py line
api_key = key_from_header or key_from_query). -/
def pyOr (a b : Option String) : Option String :=
  if truthy a then a else b

/-- Predicate used by the store lookup filter(APIKey.key == api_key). -/
def keyMatches (k : String) (r : APIKey) : Bool := r.key == k

/-- db.delete of the first record matching p, mirroring that query(...).first
returns the first match and that record is the one deleted. -/
def eraseFirst (p : APIKey → Bool) : KeyStore → KeyStore
  | [] => []
  | r :: rs => if p r then rs else r :: eraseFirst p rs

/-- Committing a mutation of the record that query(...).first returned:
the first record matching p is replaced by its updated value. -/
def replaceFirst (p : APIKey → Bool) (upd : APIKey) : KeyStore → KeyStore
  | [] => []
  | r :: rs => if p r then upd :: rs else r :: replaceFirst p upd rs

/-- The unique index on the key column: all stored keys are distinct. -/
def uniqueKeys (db : KeyStore) : Prop :=
  db.Pairwise fun a b => a.key ≠ b.key

/-- Detail of the 403 raised when no key is supplied (main.py). -/
def missingCredentialDetail : String :=
  "An API key is required. Provide it in the \x27X-API-Key\x27 header or as an \x27api_key\x27 query parameter."

/-- Detail of the 403 raised when the key is unknown (main.py). -/
def invalidKeyDetail : String := "Invalid API Key."

/-- Detail of the 403 raised when the key has expired (main.py). -/
def expiredKeyDetail : String := "API Key has expired. Please create a new one."

/-- Detail of the 429 raised when the daily limit is reached (main.py,
the f-string interpolating DAILY_REQUEST_LIMIT). -/
def quotaExceededDetail : String :=
  "Daily request limit of " ++ toString DAILY_REQUEST_LIMIT ++ " exceeded."

/-- Detail returned by create-key (main.py, interpolating
KEY_EXPIRATION_DAYS). -/
def keyCreatedDetail : String :=
  "Key created successfully. It will expire in " ++ toString KEY_EXPIRATION_DAYS ++ " days."

/-- Body of get_api_key in main.py after the candidate key has been selected:
the missing check, the lookup, the expiration check with deletion, and the
per-day quota bookkeeping. Returns the endpoint-visible result together with
the committed store. -/
def validate_with_key (api_key : Option String) (db : KeyStore)
    (nowUtc tzOffset : Int) : Except HTTPException APIKey × KeyStore :=
  match api_key with
  | none => (Except.error ⟨403, missingCredentialDetail⟩, db)
  | some k =>
    if k = "" then (Except.error ⟨403, missingCredentialDetail⟩, db)
    else
      match db.find? (keyMatches k) with
      | none => (Except.error ⟨403, invalidKeyDetail⟩, db)
      | some db_key =>
        if nowUtc > db_key.created_at + (KEY_EXPIRATION_DAYS : Int) * secondsPerDay then
          (Except.error ⟨403, expiredKeyDetail⟩, eraseFirst (keyMatches k) db)
        else
          let today := localToday nowUtc tzOffset
          if db_key.last_request_date = some today then
            if db_key.request_count_today ≥ DAILY_REQUEST_LIMIT then
              (Except.error ⟨429, quotaExceededDetail⟩, db)
            else
              let updated :=
                { db_key with request_count_today := db_key.request_count_today + 1 }
              (Except.ok updated, replaceFirst (keyMatches k) updated db)
          else
            let updated :=
              { db_key with last_request_date := some today, request_count_today := 1 }
            (Except.ok updated, replaceFirst (keyMatches k) updated db)

/-- get_api_key in main.py: selects the candidate key from the X-API-Key
header, falling back to the api_key query parameter, then validates it. -/
def get_api_key (key_from_header key_from_query : Option String)
    (db : KeyStore) (nowUtc tzOffset : Int) :
    Except HTTPException APIKey × KeyStore :=
  validate_with_key (pyOr key_from_header key_from_query) db nowUtc tzOffset

/-- The base64url alphabet, in table order. -/
def b64Alphabet : List Char :=
  ['A','B','C','D','E','F','G','H','I','J','K','L','M',
   'N','O','P','Q','R','S','T','U','V','W','X','Y','Z',
   'a','b','c','d','e','f','g','h','i','j','k','l','m',
   'n','o','p','q','r','s','t','u','v','w','x','y','z',
   '0','1','2','3','4','5','6','7','8','9','-','_']

/-- The base64url character for a 6-bit value. -/
def b64Char (u : Nat) : Char := b64Alphabet.getD u 'A'

/-- Index of a character in the base64url alphabet. -/
def charIdx (c : Char) : Nat := b64Alphabet.indexOf c

/-- base64url encoding of a byte list, without padding, as
base64.urlsafe_b64encode followed by stripping the = padding. -/
def encodeB64url : List Nat → List Char
  | [] => []
  | [b1] => [b64Char (b1 / 4), b64Char (b1 % 4 * 16)]
  | [b1, b2] =>
    [b64Char (b1 / 4), b64Char (b1 % 4 * 16 + b2 / 16), b64Char (b2 % 16 * 4)]
  | b1 :: b2 :: b3 :: rest =>
    b64Char (b1 / 4) :: b64Char (b1 % 4 * 16 + b2 / 16) ::
    b64Char (b2 % 16 * 4 + b3 / 64) :: b64Char (b3 % 64) :: encodeB64url rest

/-- base64url decoding, inverse of the encoder on in-range bytes. -/
def decodeB64url : List Char → List Nat
  | c1 :: c2 :: c3 :: c4 :: rest =>
    (charIdx c1 * 4 + charIdx c2 / 16) ::
    (charIdx c2 % 16 * 16 + charIdx c3 / 4) ::
    (charIdx c3 % 4 * 64 + charIdx c4) :: decodeB64url rest
  | [c1, c2, c3] =>
    [charIdx c1 * 4 + charIdx c2 / 16, charIdx c2 % 16 * 16 + charIdx c3 / 4]
  | [c1, c2] => [charIdx c1 * 4 + charIdx c2 / 16]
  | _ => []

/-- secrets.token_urlsafe applied to the given randomly drawn bytes:
the base64url encoding of the bytes as a string. The caller passes the 32
bytes that token_urlsafe(32) draws from the secure generator. -/
def secrets_token_urlsafe (randomBytes : List Nat) : String :=
  String.mk (encodeB64url randomBytes)

/-- create_api_key in main.py: mints a token from the drawn random bytes,
inserts one fresh record (created_at = now, last_request_date null,
request_count_today 0, from the model defaults in models.py), and returns
the response body. -/
def create_api_key (randomBytes : List Nat) (nowUtc : Int) (db : KeyStore) :
    KeyCreationResponse × KeyStore :=
  let new_key_str := secrets_token_urlsafe randomBytes
  let new_key_obj : APIKey :=
    { key := new_key_str, created_at := nowUtc,
      last_request_date := none, request_count_today := 0 }
  (⟨new_key_str, keyCreatedDetail⟩, db ++ [new_key_obj])

/-- ask_zeus_ai in main.py: the key dependency runs and commits first; only
then is the LLM chain invoked. An exception from the chain becomes a 500
whose detail embeds the raw error text. -/
def ask_zeus_ai (query : String) (key_from_header key_from_query : Option String)
    (db : KeyStore) (nowUtc tzOffset : Int)
    (chain_invoke : String → Except String String) :
    Except HTTPException QueryResponse × KeyStore :=
  match get_api_key key_from_header key_from_query db nowUtc tzOffset with
  | (Except.error e, db2) => (Except.error e, db2)
  | (Except.ok _, db2) =>
    match chain_invoke query with
    | Except.ok r => (Except.ok ⟨r⟩, db2)
    | Except.error e => (Except.error ⟨500, "An error occurred: " ++ e⟩, db2)

/-- n validation calls in sequence with a fixed credential and clock,
threading the committed store; the flag records whether every call
succeeded. -/
def validateRepeat (key_from_header key_from_query : Option String)
    (nowUtc tzOffset : Int) : Nat → KeyStore → Bool × KeyStore
  | 0, db => (true, db)
  | Nat.succ n, db =>
    match get_api_key key_from_header key_from_query db nowUtc tzOffset with
    | (Except.ok _, db2) => validateRepeat key_from_header key_from_query nowUtc tzOffset n db2
    | (Except.error _, db2) => (false, db2)

/-- Selecting from a truthy header ignores the query parameter. -/
theorem pyOr_truthy (a b : Option String) (h : truthy a = true) : pyOr a b = a := by
  simp [pyOr, h]

/-- Selecting from a falsy header falls back to the query parameter. -/
theorem pyOr_falsy (a b : Option String) (h : truthy a = false) : pyOr a b = b := by
  simp [pyOr, h]

/-- A nonempty header string is truthy. -/
theorem truthy_some (s : String) (h : s ≠ "") : truthy (some s) = true := by
  simp [truthy, h]

/-- Validation with no candidate key fails with the missing-credential 403
and leaves the store untouched. -/
theorem validate_none (db : KeyStore) (now tz : Int) :
    validate_with_key none db now tz = (Except.error ⟨403, missingCredentialDetail⟩, db) := rfl

/-- Validation with an empty candidate key fails with the missing-credential
403 and leaves the store untouched. -/
theorem validate_empty (db : KeyStore) (now tz : Int) :
    validate_with_key (some "") db now tz = (Except.error ⟨403, missingCredentialDetail⟩, db) := rfl

/-- Validation with an unknown candidate key fails with the invalid-key 403
and leaves the store untouched. -/
theorem validate_invalid (k : String) (db : KeyStore) (now tz : Int)
    (hk : k ≠ "") (hfind : db.find? (keyMatches k) = none) :
    validate_with_key (some k) db now tz = (Except.error ⟨403, invalidKeyDetail⟩, db) := by
  simp only [validate_with_key, if_neg hk, hfind]

/-- Validation of an expired key deletes the record and fails with the
expired-key 403. -/
theorem validate_expired (k : String) (db : KeyStore) (now tz : Int) (r : APIKey)
    (hk : k ≠ "") (hfind : db.find? (keyMatches k) = some r)
    (hexp : now > r.created_at + (KEY_EXPIRATION_DAYS : Int) * secondsPerDay) :
    validate_with_key (some k) db now tz =
      (Except.error ⟨403, expiredKeyDetail⟩, eraseFirst (keyMatches k) db) := by
  simp only [validate_with_key, if_neg hk, hfind, if_pos hexp]

/-- Validation of a same-day key at the daily limit fails with the 429 and
leaves the store untouched. -/
theorem validate_quota (k : String) (db : KeyStore) (now tz : Int) (r : APIKey)
    (hk : k ≠ "") (hfind : db.find? (keyMatches k) = some r)
    (hexp : ¬ now > r.created_at + (KEY_EXPIRATION_DAYS : Int) * secondsPerDay)
    (hday : r.last_request_date = some (localToday now tz))
    (hcount : r.request_count_today ≥ DAILY_REQUEST_LIMIT) :
    validate_with_key (some k) db now tz = (Except.error ⟨429, quotaExceededDetail⟩, db) := by
  simp only [validate_with_key, if_neg hk, hfind, if_neg hexp, if_pos hday, if_pos hcount]

/-- Validation of a same-day key below the daily limit increments the
counter by one and commits the updated record. -/
theorem validate_increment (k : String) (db : KeyStore) (now tz : Int) (r : APIKey)
    (hk : k ≠ "") (hfind : db.find? (keyMatches k) = some r)
    (hexp : ¬ now > r.created_at + (KEY_EXPIRATION_DAYS : Int) * secondsPerDay)
    (hday : r.last_request_date = some (localToday now tz))
    (hcount : r.request_count_today < DAILY_REQUEST_LIMIT) :
    validate_with_key (some k) db now tz =
      (Except.ok { r with request_count_today := r.request_count_today + 1 },
       replaceFirst (keyMatches k)
         { r with request_count_today := r.request_count_today + 1 } db) := by
  simp only [validate_with_key, if_neg hk, hfind, if_neg hexp, if_pos hday,
    if_neg (not_le.mpr hcount)]

/-- Validation on a new day (or first use) stamps today and resets the
counter to one, whatever count was stored. -/
theorem validate_new_day (k : String) (db : KeyStore) (now tz : Int) (r : APIKey)
    (hk : k ≠ "") (hfind : db.find? (keyMatches k) = some r)
    (hexp : ¬ now > r.created_at + (KEY_EXPIRATION_DAYS : Int) * secondsPerDay)
    (hday : r.last_request_date ≠ some (localToday now tz)) :
    validate_with_key (some k) db now tz =
      (Except.ok { r with last_request_date := some (localToday now tz),
                          request_count_today := 1 },
       replaceFirst (keyMatches k)
         { r with last_request_date := some (localToday now tz),
                  request_count_today := 1 } db) := by
  simp only [validate_with_key, if_neg hk, hfind, if_neg hexp, if_neg hday]

/-- After replacing the first match by a record that still matches, lookup
finds the replacement. -/
theorem find?_replaceFirst_pos (p : APIKey → Bool) (n : APIKey) (hn : p n = true) :
    ∀ l : KeyStore, (l.find? p).isSome → (replaceFirst p n l).find? p = some n := by
  intro l
  induction l with
  | nil => intro h; simp [List.find?] at h
  | cons a l ih =>
    intro hs
    by_cases ha : p a = true
    · rw [replaceFirst, if_pos ha, List.find?_cons_of_pos _ hn]
    · rw [replaceFirst, if_neg ha, List.find?_cons_of_neg _ ha]
      apply ih
      rwa [List.find?_cons_of_neg _ ha] at hs

/-- Replacing the first p-match by a record n that is not a q-match leaves
lookup by q unchanged, provided p-matches are never q-matches. -/
theorem find?_replaceFirst_frame (p q : APIKey → Bool) (n : APIKey)
    (hn : q n = false) (hpq : ∀ a, p a = true → q a = false) :
    ∀ l : KeyStore, (replaceFirst p n l).find? q = l.find? q := by
  intro l
  induction l with
  | nil => rfl
  | cons a l ih =>
    by_cases ha : p a = true
    · rw [replaceFirst, if_pos ha, List.find?_cons_of_neg _ (by simp [hn]),
        List.find?_cons_of_neg _ (by simp [hpq a ha])]
    · rw [replaceFirst, if_neg ha]
      by_cases hq : q a = true
      · rw [List.find?_cons_of_pos _ hq, List.find?_cons_of_pos _ hq]
      · rw [List.find?_cons_of_neg _ hq, List.find?_cons_of_neg _ hq, ih]

/-- Deleting the first p-match leaves lookup by q unchanged, provided
p-matches are never q-matches. -/
theorem find?_eraseFirst_frame (p q : APIKey → Bool)
    (hpq : ∀ a, p a = true → q a = false) :
    ∀ l : KeyStore, (eraseFirst p l).find? q = l.find? q := by
  intro l
  induction l with
  | nil => rfl
  | cons a l ih =>
    by_cases ha : p a = true
    · rw [eraseFirst, if_pos ha, List.find?_cons_of_neg _ (by simp [hpq a ha])]
    · rw [eraseFirst, if_neg ha]
      by_cases hq : q a = true
      · rw [List.find?_cons_of_pos _ hq, List.find?_cons_of_pos _ hq]
      · rw [List.find?_cons_of_neg _ hq, List.find?_cons_of_neg _ hq, ih]

/-- When no two records both match p, deleting the first p-match leaves no
p-match behind. -/
theorem find?_eraseFirst_self (p : APIKey → Bool) :
    ∀ l : KeyStore, l.Pairwise (fun a b => ¬(p a = true ∧ p b = true)) →
      (eraseFirst p l).find? p = none := by
  intro l
  induction l with
  | nil => intro _; rfl
  | cons a l ih =>
    intro hp
    rw [List.pairwise_cons] at hp
    by_cases ha : p a = true
    · rw [eraseFirst, if_pos ha]
      apply List.find?_eq_none.mpr
      intro x hx hpx
      exact hp.1 x hx ⟨ha, hpx⟩
    · rw [eraseFirst, if_neg ha, List.find?_cons_of_neg _ ha]
      exact ih hp.2

/-- Every record of a replaced store is an old record or the replacement. -/
theorem mem_replaceFirst (p : APIKey → Bool) (n : APIKey) :
    ∀ l : KeyStore, ∀ b ∈ replaceFirst p n l, b ∈ l ∨ b = n := by
  intro l
  induction l with
  | nil => intro b hb; simp [replaceFirst] at hb
  | cons a l ih =>
    intro b hb
    by_cases ha : p a = true
    · rw [replaceFirst, if_pos ha] at hb
      rcases List.mem_cons.mp hb with h | h
      · exact Or.inr h
      · exact Or.inl (List.mem_cons_of_mem _ h)
    · rw [replaceFirst, if_neg ha] at hb
      rcases List.mem_cons.mp hb with h | h
      · exact Or.inl (h ▸ List.mem_cons_self _ _)
      · rcases ih b h with h2 | h2
        · exact Or.inl (List.mem_cons_of_mem _ h2)
        · exact Or.inr h2

/-- Replacing the first record with key k by another record with key k
preserves distinctness of stored keys. -/
theorem uniqueKeys_replaceFirst (k : String) (n : APIKey) (hn : n.key = k) :
    ∀ l : KeyStore, uniqueKeys l → uniqueKeys (replaceFirst (keyMatches k) n l) := by
  intro l
  induction l with
  | nil => intro h; exact h
  | cons a l ih =>
    intro hu
    rw [uniqueKeys, List.pairwise_cons] at hu
    by_cases ha : keyMatches k a = true
    · rw [replaceFirst, if_pos ha]
      rw [uniqueKeys, List.pairwise_cons]
      refine ⟨fun b hb => ?_, hu.2⟩
      have hak : a.key = k := by simpa [keyMatches] using ha
      rw [hn, ← hak]
      exact hu.1 b hb
    · rw [replaceFirst, if_neg ha]
      rw [uniqueKeys, List.pairwise_cons]
      refine ⟨fun b hb => ?_, ih hu.2⟩
      rcases mem_replaceFirst _ _ _ b hb with h | h
      · exact hu.1 b h
      · rw [h, hn]
        simpa [keyMatches] using ha

/-- Distinct stored keys imply that no two records both match a given key. -/
theorem uniqueKeys_pairwise_not_both (k : String) (db : KeyStore) (hu : uniqueKeys db) :
    db.Pairwise (fun a b => ¬(keyMatches k a = true ∧ keyMatches k b = true)) := by
  refine List.Pairwise.imp ?_ hu
  intro a b hab ⟨ha, hb⟩
  have ha2 : a.key = k := by simpa [keyMatches] using ha
  have hb2 : b.key = k := by simpa [keyMatches] using hb
  exact hab (ha2.trans hb2.symm)

/-- Two successive first-match replacements collapse to the second. -/
theorem replaceFirst_replaceFirst (p : APIKey → Bool) (n1 n2 : APIKey)
    (h1 : p n1 = true) :
    ∀ l : KeyStore, replaceFirst p n2 (replaceFirst p n1 l) = replaceFirst p n2 l := by
  intro l
  induction l with
  | nil => rfl
  | cons a l ih =>
    by_cases ha : p a = true
    · rw [replaceFirst, if_pos ha, replaceFirst, if_pos h1, replaceFirst, if_pos ha]
    · rw [replaceFirst, if_neg ha, replaceFirst, if_neg ha, replaceFirst, if_neg ha, ih]

/-- The alphabet lookup is inverted by the index scan on 6-bit values. -/
theorem charIdx_b64Char : ∀ u : Nat, u < 64 → charIdx (b64Char u) = u := by decide

/-- Every alphabet character for a 6-bit value lies in the alphabet. -/
theorem b64Char_mem : ∀ u : Nat, u < 64 → b64Char u ∈ b64Alphabet := by decide

/-- Decoding inverts encoding on byte lists. -/
theorem decodeB64url_encodeB64url :
    ∀ l : List Nat, (∀ b ∈ l, b < 256) → decodeB64url (encodeB64url l) = l
  | [], _ => rfl
  | [b1], h => by
    have hb1 : b1 < 256 := h b1 (by simp)
    rw [encodeB64url, decodeB64url,
      charIdx_b64Char _ (by omega), charIdx_b64Char _ (by omega)]
    congr 1
    omega
  | [b1, b2], h => by
    have hb1 : b1 < 256 := h b1 (by simp)
    have hb2 : b2 < 256 := h b2 (by simp)
    rw [encodeB64url, decodeB64url, charIdx_b64Char _ (by omega),
      charIdx_b64Char _ (by omega), charIdx_b64Char _ (by omega)]
    have e1 : b1 / 4 * 4 + (b1 % 4 * 16 + b2 / 16) / 16 = b1 := by omega
    have e2 : (b1 % 4 * 16 + b2 / 16) % 16 * 16 + b2 % 16 * 4 / 4 = b2 := by omega
    rw [e1, e2]
  | b1 :: b2 :: b3 :: b4 :: rest, h => by
    have hb1 : b1 < 256 := h b1 (by simp)
    have hb2 : b2 < 256 := h b2 (by simp)
    have hb3 : b3 < 256 := h b3 (by simp)
    have ih := decodeB64url_encodeB64url (b4 :: rest)
      (fun b hb => h b (by simp at hb; rcases hb with hb | hb <;> simp [hb]))
    rw [encodeB64url, decodeB64url, charIdx_b64Char _ (by omega),
      charIdx_b64Char _ (by omega), charIdx_b64Char _ (by omega),
      charIdx_b64Char _ (by omega), ih]
    have e1 : b1 / 4 * 4 + (b1 % 4 * 16 + b2 / 16) / 16 = b1 := by omega
    have e2 : (b1 % 4 * 16 + b2 / 16) % 16 * 16 + (b2 % 16 * 4 + b3 / 64) / 4 = b2 := by
      omega
    have e3 : (b2 % 16 * 4 + b3 / 64) % 4 * 64 + b3 % 64 = b3 := by omega
    rw [e1, e2, e3]
  | [b1, b2, b3], h => by
    have hb1 : b1 < 256 := h b1 (by simp)
    have hb2 : b2 < 256 := h b2 (by simp)
    have hb3 : b3 < 256 := h b3 (by simp)
    rw [encodeB64url, decodeB64url, charIdx_b64Char _ (by omega),
      charIdx_b64Char _ (by omega), charIdx_b64Char _ (by omega),
      charIdx_b64Char _ (by omega)]
    have e1 : b1 / 4 * 4 + (b1 % 4 * 16 + b2 / 16) / 16 = b1 := by omega
    have e2 : (b1 % 4 * 16 + b2 / 16) % 16 * 16 + (b2 % 16 * 4 + b3 / 64) / 4 = b2 := by
      omega
    have e3 : (b2 % 16 * 4 + b3 / 64) % 4 * 64 + b3 % 64 = b3 := by omega
    rw [e1, e2, e3]
    rfl

/-- Length of an unpadded base64url encoding. -/
theorem encodeB64url_length :
    ∀ l : List Nat, (encodeB64url l).length = (4 * l.length + 2) / 3
  | [] => rfl
  | [_] => by simp [encodeB64url]
  | [_, _] => by simp [encodeB64url]
  | b1 :: b2 :: b3 :: b4 :: rest => by
    have ih := encodeB64url_length (b4 :: rest)
    rw [encodeB64url]
    simp only [List.length_cons] at ih ⊢
    omega
  | [_, _, _] => by simp [encodeB64url]

/-- Every character of an encoding lies in the base64url alphabet. -/
theorem encodeB64url_chars :
    ∀ l : List Nat, (∀ b ∈ l, b < 256) → ∀ c ∈ encodeB64url l, c ∈ b64Alphabet
  | [], _ => by simp [encodeB64url]
  | [b1], h => by
    have hb1 : b1 < 256 := h b1 (by simp)
    rw [encodeB64url]
    intro c hc
    simp only [List.mem_cons, List.not_mem_nil, or_false] at hc
    rcases hc with hc | hc <;> rw [hc] <;> exact b64Char_mem _ (by omega)
  | [b1, b2], h => by
    have hb1 : b1 < 256 := h b1 (by simp)
    have hb2 : b2 < 256 := h b2 (by simp)
    rw [encodeB64url]
    intro c hc
    simp only [List.mem_cons, List.not_mem_nil, or_false] at hc
    rcases hc with hc | hc | hc <;> rw [hc] <;> exact b64Char_mem _ (by omega)
  | b1 :: b2 :: b3 :: rest, h => by
    have hb1 : b1 < 256 := h b1 (by simp)
    have hb2 : b2 < 256 := h b2 (by simp)
    have hb3 : b3 < 256 := h b3 (by simp)
    have ih := encodeB64url_chars rest
      (fun b hb => h b (by simp [hb]))
    rw [encodeB64url]
    intro c hc
    simp only [List.mem_cons] at hc
    rcases hc with hc | hc | hc | hc | hc
    · rw [hc]; exact b64Char_mem _ (by omega)
    · rw [hc]; exact b64Char_mem _ (by omega)
    · rw [hc]; exact b64Char_mem _ (by omega)
    · rw [hc]; exact b64Char_mem _ (by omega)
    · exact ih c hc

/-- Iterated same-day validation within the limit: every call succeeds and
the committed counter advances by exactly the number of calls. -/
theorem validateRepeat_same_day (k : String) (now tz : Int) (hk : k ≠ "") :
    ∀ (n : Nat) (db : KeyStore) (r : APIKey),
      db.find? (keyMatches k) = some r →
      ¬ now > r.created_at + (KEY_EXPIRATION_DAYS : Int) * secondsPerDay →
      r.last_request_date = some (localToday now tz) →
      r.request_count_today + n ≤ DAILY_REQUEST_LIMIT →
      (validateRepeat (some k) none now tz n db).1 = true ∧
      ((validateRepeat (some k) none now tz n db).2).find? (keyMatches k) =
        some { r with request_count_today := r.request_count_today + n }
  | 0, db, r, hfind, _, _, _ => ⟨rfl, hfind⟩
  | Nat.succ n, db, r, hfind, hexp, hday, hle => by
    have hlt : r.request_count_today < DAILY_REQUEST_LIMIT := by omega
    have hkm : keyMatches k r = true := List.find?_some hfind
    have hga : get_api_key (some k) none db now tz = validate_with_key (some k) db now tz := by
      rw [get_api_key, pyOr_truthy _ _ (truthy_some k hk)]
    have hstep := validate_increment k db now tz r hk hfind hexp hday hlt
    have hfind2 : (replaceFirst (keyMatches k)
        { r with request_count_today := r.request_count_today + 1 } db).find? (keyMatches k) =
        some { r with request_count_today := r.request_count_today + 1 } :=
      find?_replaceFirst_pos (keyMatches k)
        { r with request_count_today := r.request_count_today + 1 } hkm db
        (by rw [hfind]; rfl)
    have ih := validateRepeat_same_day k now tz hk n
      (replaceFirst (keyMatches k)
        { r with request_count_today := r.request_count_today + 1 } db)
      { r with request_count_today := r.request_count_today + 1 }
      hfind2 hexp hday
      (by show r.request_count_today + 1 + n ≤ DAILY_REQUEST_LIMIT; omega)
    have hred : validateRepeat (some k) none now tz (n + 1) db =
        validateRepeat (some k) none now tz n (replaceFirst (keyMatches k)
          { r with request_count_today := r.request_count_today + 1 } db) := by
      rw [validateRepeat, hga, hstep]
    rw [hred]
    refine ⟨ih.1, ?_⟩
    rw [ih.2]
    show some (APIKey.mk r.key r.created_at r.last_request_date
      (r.request_count_today + 1 + n)) = _
    rw [(by omega : r.request_count_today + 1 + n = r.request_count_today + (n + 1))]

/-- C1: for a record whose stored date is today, validation below the limit
succeeds and increments the counter by exactly one; 1000 same-day calls from
a zero counter all succeed and drive the counter to 1000; the next call that
day fails with the 429 quota error whose message names the limit 1000, and
commits no mutation. -/
theorem quota_boundary_spec :
    (∀ (k : String) (db : KeyStore) (now tz : Int) (r : APIKey),
      k ≠ "" →
      db.find? (keyMatches k) = some r →
      ¬ now > r.created_at + (KEY_EXPIRATION_DAYS : Int) * secondsPerDay →
      r.last_request_date = some (localToday now tz) →
      r.request_count_today < DAILY_REQUEST_LIMIT →
      get_api_key (some k) none db now tz =
        (Except.ok { r with request_count_today := r.request_count_today + 1 },
         replaceFirst (keyMatches k)
           { r with request_count_today := r.request_count_today + 1 } db)) ∧
    (∀ (k : String) (db : KeyStore) (now tz : Int) (r : APIKey),
      k ≠ "" →
      db.find? (keyMatches k) = some r →
      ¬ now > r.created_at + (KEY_EXPIRATION_DAYS : Int) * secondsPerDay →
      r.last_request_date = some (localToday now tz) →
      r.request_count_today = 0 →
      (validateRepeat (some k) none now tz 1000 db).1 = true ∧
      ((validateRepeat (some k) none now tz 1000 db).2).find? (keyMatches k) =
        some { r with request_count_today := 1000 } ∧
      get_api_key (some k) none ((validateRepeat (some k) none now tz 1000 db).2) now tz =
        (Except.error ⟨429, quotaExceededDetail⟩,
         (validateRepeat (some k) none now tz 1000 db).2) ∧
      quotaExceededDetail = "Daily request limit of 1000 exceeded.") := by
  constructor
  · intro k db now tz r hk hfind hexp hday hcount
    rw [get_api_key, pyOr_truthy _ _ (truthy_some k hk)]
    exact validate_increment k db now tz r hk hfind hexp hday hcount
  · intro k db now tz r hk hfind hexp hday hzero
    have hrep := validateRepeat_same_day k now tz hk 1000 db r hfind hexp hday
      (by rw [hzero]; decide)
    have hfull : ({ r with request_count_today := r.request_count_today + 1000 } : APIKey) =
        { r with request_count_today := 1000 } := by
      rw [hzero]
    rw [hfull] at hrep
    refine ⟨hrep.1, hrep.2, ?_, rfl⟩
    rw [get_api_key, pyOr_truthy _ _ (truthy_some k hk)]
    exact validate_quota k _ now tz { r with request_count_today := 1000 }
      hk hrep.2 hexp hday (by show 1000 ≥ DAILY_REQUEST_LIMIT; decide)

/-- Witness for C1 at a concrete one-record store with the counter at zero
on the stored day. -/
theorem quota_boundary_spec_witness :
    (get_api_key (some "K") none [⟨"K", 0, some 0, 0⟩] 0 0 =
      (Except.ok ⟨"K", 0, some 0, 1⟩,
       replaceFirst (keyMatches "K") ⟨"K", 0, some 0, 1⟩ [⟨"K", 0, some 0, 0⟩])) ∧
    ((validateRepeat (some "K") none 0 0 1000 [⟨"K", 0, some 0, 0⟩]).1 = true ∧
     ((validateRepeat (some "K") none 0 0 1000 [⟨"K", 0, some 0, 0⟩]).2).find?
        (keyMatches "K") = some ⟨"K", 0, some 0, 1000⟩ ∧
     get_api_key (some "K") none
        ((validateRepeat (some "K") none 0 0 1000 [⟨"K", 0, some 0, 0⟩]).2) 0 0 =
       (Except.error ⟨429, quotaExceededDetail⟩,
        (validateRepeat (some "K") none 0 0 1000 [⟨"K", 0, some 0, 0⟩]).2) ∧
     quotaExceededDetail = "Daily request limit of 1000 exceeded.") :=
  ⟨quota_boundary_spec.1 "K" [⟨"K", 0, some 0, 0⟩] 0 0 ⟨"K", 0, some 0, 0⟩
      (by decide) rfl (by decide) rfl (by decide),
   quota_boundary_spec.2 "K" [⟨"K", 0, some 0, 0⟩] 0 0 ⟨"K", 0, some 0, 0⟩
      (by decide) rfl (by decide) rfl rfl⟩

/-- C2: expiration compares now against createdAt + 30 days strictly: one
second before the boundary validation succeeds (quota permitting); one
second past it the call fails with the expired 403 and deletes the record,
which is then absent from the store. -/
theorem expiration_boundary_spec :
    ∀ (k : String) (db : KeyStore) (tz : Int) (r : APIKey),
      k ≠ "" → uniqueKeys db →
      db.find? (keyMatches k) = some r →
      (r.last_request_date ≠
          some (localToday (r.created_at + (KEY_EXPIRATION_DAYS : Int) * secondsPerDay - 1) tz) ∨
        r.request_count_today < DAILY_REQUEST_LIMIT) →
      (∃ r2, (get_api_key (some k) none db
          (r.created_at + (KEY_EXPIRATION_DAYS : Int) * secondsPerDay - 1) tz).1 =
          Except.ok r2) ∧
      get_api_key (some k) none db
          (r.created_at + (KEY_EXPIRATION_DAYS : Int) * secondsPerDay + 1) tz =
        (Except.error ⟨403, expiredKeyDetail⟩, eraseFirst (keyMatches k) db) ∧
      (eraseFirst (keyMatches k) db).find? (keyMatches k) = none := by
  intro k db tz r hk hu hfind hq
  have hga : ∀ now dbx, get_api_key (some k) none dbx now tz =
      validate_with_key (some k) dbx now tz := by
    intro now dbx
    rw [get_api_key, pyOr_truthy _ _ (truthy_some k hk)]
  have hexp1 : ¬ r.created_at + (KEY_EXPIRATION_DAYS : Int) * secondsPerDay - 1 >
      r.created_at + (KEY_EXPIRATION_DAYS : Int) * secondsPerDay := by omega
  have hexp2 : r.created_at + (KEY_EXPIRATION_DAYS : Int) * secondsPerDay + 1 >
      r.created_at + (KEY_EXPIRATION_DAYS : Int) * secondsPerDay := by omega
  refine ⟨?_, ?_, ?_⟩
  · rcases hq with hq | hq
    · exact ⟨_, by rw [hga, validate_new_day k db _ tz r hk hfind hexp1 hq]⟩
    · by_cases hday : r.last_request_date =
        some (localToday (r.created_at + (KEY_EXPIRATION_DAYS : Int) * secondsPerDay - 1) tz)
      · exact ⟨_, by rw [hga, validate_increment k db _ tz r hk hfind hexp1 hday hq]⟩
      · exact ⟨_, by rw [hga, validate_new_day k db _ tz r hk hfind hexp1 hday]⟩
  · rw [hga]
    exact validate_expired k db _ tz r hk hfind hexp2
  · exact find?_eraseFirst_self (keyMatches k) db (uniqueKeys_pairwise_not_both k db hu)

/-- Witness for C2 at a concrete never-used one-record store. -/
theorem expiration_boundary_spec_witness :
    (∃ r2, (get_api_key (some "K") none [⟨"K", 0, none, 0⟩]
        ((0 : Int) + (KEY_EXPIRATION_DAYS : Int) * secondsPerDay - 1) 0).1 =
        Except.ok r2) ∧
    get_api_key (some "K") none [⟨"K", 0, none, 0⟩]
        ((0 : Int) + (KEY_EXPIRATION_DAYS : Int) * secondsPerDay + 1) 0 =
      (Except.error ⟨403, expiredKeyDetail⟩,
       eraseFirst (keyMatches "K") [⟨"K", 0, none, 0⟩]) ∧
    (eraseFirst (keyMatches "K") [⟨"K", 0, none, 0⟩]).find? (keyMatches "K") = none :=
  expiration_boundary_spec "K" [⟨"K", 0, none, 0⟩] 0 ⟨"K", 0, none, 0⟩
    (by decide) (by simp [uniqueKeys]) rfl (Or.inr (by decide))

/-- C3: a non-expired key used on a new day (or never used) succeeds whatever
count is stored, stamping today and resetting the counter to exactly 1; when
the stored date is already today and the count is below the limit, the count
advances by exactly 1. -/
theorem daily_reset_spec :
    (∀ (k : String) (db : KeyStore) (now tz : Int) (r : APIKey),
      k ≠ "" →
      db.find? (keyMatches k) = some r →
      ¬ now > r.created_at + (KEY_EXPIRATION_DAYS : Int) * secondsPerDay →
      r.last_request_date ≠ some (localToday now tz) →
      get_api_key (some k) none db now tz =
        (Except.ok { r with last_request_date := some (localToday now tz),
                            request_count_today := 1 },
         replaceFirst (keyMatches k)
           { r with last_request_date := some (localToday now tz),
                    request_count_today := 1 } db)) ∧
    (∀ (k : String) (db : KeyStore) (now tz : Int) (r : APIKey),
      k ≠ "" →
      db.find? (keyMatches k) = some r →
      ¬ now > r.created_at + (KEY_EXPIRATION_DAYS : Int) * secondsPerDay →
      r.last_request_date = some (localToday now tz) →
      r.request_count_today < DAILY_REQUEST_LIMIT →
      get_api_key (some k) none db now tz =
        (Except.ok { r with request_count_today := r.request_count_today + 1 },
         replaceFirst (keyMatches k)
           { r with request_count_today := r.request_count_today + 1 } db)) := by
  constructor
  · intro k db now tz r hk hfind hexp hday
    rw [get_api_key, pyOr_truthy _ _ (truthy_some k hk)]
    exact validate_new_day k db now tz r hk hfind hexp hday
  · intro k db now tz r hk hfind hexp hday hcount
    rw [get_api_key, pyOr_truthy _ _ (truthy_some k hk)]
    exact validate_increment k db now tz r hk hfind hexp hday hcount

/-- Witness for C3: a record stamped yesterday with the counter at the full
limit still succeeds today and is reset to 1. -/
theorem daily_reset_spec_witness :
    get_api_key (some "K") none [⟨"K", 0, some (-1), 1000⟩] 0 0 =
      (Except.ok ⟨"K", 0, some 0, 1⟩,
       replaceFirst (keyMatches "K") ⟨"K", 0, some 0, 1⟩ [⟨"K", 0, some (-1), 1000⟩]) ∧
    get_api_key (some "K") none [⟨"K", 7, some 0, 41⟩] 0 0 =
      (Except.ok ⟨"K", 7, some 0, 42⟩,
       replaceFirst (keyMatches "K") ⟨"K", 7, some 0, 42⟩ [⟨"K", 7, some 0, 41⟩]) :=
  ⟨daily_reset_spec.1 "K" [⟨"K", 0, some (-1), 1000⟩] 0 0 ⟨"K", 0, some (-1), 1000⟩
      (by decide) rfl (by decide) (by decide),
   daily_reset_spec.2 "K" [⟨"K", 7, some 0, 41⟩] 0 0 ⟨"K", 7, some 0, 41⟩
      (by decide) rfl (by decide) rfl (by decide)⟩

/-- C5: an absent or empty candidate key yields the missing-credential 403
with the store returned untouched for every store, so no record is read or
mutated; a nonempty candidate matching no record yields the invalid-key 403,
also without mutation. -/
theorem missing_invalid_credential_spec :
    (∀ (hk qk : Option String) (db : KeyStore) (now tz : Int),
      truthy hk = false → truthy qk = false →
      get_api_key hk qk db now tz =
        (Except.error ⟨403, missingCredentialDetail⟩, db)) ∧
    (∀ (hk qk : Option String) (k : String) (db : KeyStore) (now tz : Int),
      pyOr hk qk = some k → k ≠ "" →
      db.find? (keyMatches k) = none →
      get_api_key hk qk db now tz =
        (Except.error ⟨403, invalidKeyDetail⟩, db)) := by
  constructor
  · intro hk qk db now tz h1 h2
    rw [get_api_key, pyOr_falsy _ _ h1]
    cases qk with
    | none => rfl
    | some s =>
      have hs : s = "" := by simpa [truthy] using h2
      rw [hs]
      exact validate_empty db now tz
  · intro hk qk k db now tz hsel hkne hfind
    rw [get_api_key, hsel]
    exact validate_invalid k db now tz hkne hfind

/-- Witness for C5: an empty header with no query parameter, and an unknown
nonempty key, each rejected with the matching 403 on a sample store. -/
theorem missing_invalid_credential_spec_witness :
    get_api_key (some "") none [⟨"K", 0, none, 0⟩] 0 0 =
      (Except.error ⟨403, missingCredentialDetail⟩, [⟨"K", 0, none, 0⟩]) ∧
    get_api_key (some "X") none [⟨"K", 0, none, 0⟩] 0 0 =
      (Except.error ⟨403, invalidKeyDetail⟩, [⟨"K", 0, none, 0⟩]) :=
  ⟨missing_invalid_credential_spec.1 (some "") none [⟨"K", 0, none, 0⟩] 0 0
      (by decide) (by decide),
   missing_invalid_credential_spec.2 (some "X") none "X" [⟨"K", 0, none, 0⟩] 0 0
      rfl (by decide) rfl⟩

/-- With a nonempty candidate key, validation never produces the
missing-credential 403: every branch yields a different response. -/
theorem validate_nonempty_not_missing (k : String) (db : KeyStore) (now tz : Int)
    (hk : k ≠ "") :
    (validate_with_key (some k) db now tz).1 ≠
      Except.error ⟨403, missingCredentialDetail⟩ := by
  cases hfind : db.find? (keyMatches k) with
  | none =>
    rw [validate_invalid k db now tz hk hfind]
    intro hres
    have h2 : invalidKeyDetail = missingCredentialDetail :=
      congrArg HTTPException.detail (Except.error.inj hres)
    exact absurd h2 (by decide)
  | some r =>
    by_cases hexp : now > r.created_at + (KEY_EXPIRATION_DAYS : Int) * secondsPerDay
    · rw [validate_expired k db now tz r hk hfind hexp]
      intro hres
      have h2 : expiredKeyDetail = missingCredentialDetail :=
        congrArg HTTPException.detail (Except.error.inj hres)
      exact absurd h2 (by decide)
    · by_cases hday : r.last_request_date = some (localToday now tz)
      · by_cases hcnt : r.request_count_today ≥ DAILY_REQUEST_LIMIT
        · rw [validate_quota k db now tz r hk hfind hexp hday hcnt]
          intro hres
          have h2 : (429 : Nat) = 403 :=
            congrArg HTTPException.status_code (Except.error.inj hres)
          exact absurd h2 (by decide)
        · rw [validate_increment k db now tz r hk hfind hexp hday (by omega)]
          exact fun hres => Except.noConfusion hres
      · rw [validate_new_day k db now tz r hk hfind hexp hday]
        exact fun hres => Except.noConfusion hres

/-- C9: a nonempty header is always the candidate key, whatever the query
parameter holds; a falsy header (absent or empty) makes the query value the
candidate; and the missing-credential 403 arises exactly when both sources
are falsy. -/
theorem header_query_precedence_spec :
    (∀ (h : String) (qk : Option String) (db : KeyStore) (now tz : Int),
      h ≠ "" →
      get_api_key (some h) qk db now tz = validate_with_key (some h) db now tz) ∧
    (∀ (hk : Option String) (q : String) (db : KeyStore) (now tz : Int),
      truthy hk = false →
      get_api_key hk (some q) db now tz = validate_with_key (some q) db now tz) ∧
    (∀ (hk qk : Option String) (db : KeyStore) (now tz : Int),
      (get_api_key hk qk db now tz).1 = Except.error ⟨403, missingCredentialDetail⟩ →
      truthy hk = false ∧ truthy qk = false) := by
  refine ⟨?_, ?_, ?_⟩
  · intro h qk db now tz hne
    rw [get_api_key, pyOr_truthy _ _ (truthy_some h hne)]
  · intro hk q db now tz hf
    rw [get_api_key, pyOr_falsy _ _ hf]
  · intro hk qk db now tz hres
    have hhk : truthy hk = false := by
      by_contra hh
      have hh1 : truthy hk = true := by simpa using hh
      cases hk with
      | none => simp [truthy] at hh1
      | some h =>
        have hne : h ≠ "" := by simpa [truthy] using hh1
        rw [get_api_key, pyOr_truthy _ _ hh1] at hres
        exact validate_nonempty_not_missing h db now tz hne hres
    refine ⟨hhk, ?_⟩
    by_contra hq
    have hq1 : truthy qk = true := by simpa using hq
    cases qk with
    | none => simp [truthy] at hq1
    | some s =>
      have hne : s ≠ "" := by simpa [truthy] using hq1
      rw [get_api_key, pyOr_falsy _ _ hhk] at hres
      exact validate_nonempty_not_missing s db now tz hne hres

/-- Witness for C9: an empty header falls back to a valid query-parameter
key, and a 403 missing-credential response forces both sources falsy. -/
theorem header_query_precedence_spec_witness :
    get_api_key (some "H") (some "Q") [⟨"H", 0, none, 3⟩] 0 0 =
      validate_with_key (some "H") [⟨"H", 0, none, 3⟩] 0 0 ∧
    get_api_key (some "") (some "Q") [⟨"Q", 0, none, 3⟩] 0 0 =
      validate_with_key (some "Q") [⟨"Q", 0, none, 3⟩] 0 0 ∧
    (truthy (some "") = false ∧ truthy (none : Option String) = false) :=
  ⟨header_query_precedence_spec.1 "H" (some "Q") [⟨"H", 0, none, 3⟩] 0 0 (by decide),
   header_query_precedence_spec.2.1 (some "") "Q" [⟨"Q", 0, none, 3⟩] 0 0 (by decide),
   header_query_precedence_spec.2.2 (some "") none [⟨"Q", 0, none, 3⟩] 0 0 rfl⟩

/-- C4 counterexample: at 23:30 UTC on day 0 with a host timezone offset of
+1 hour, a successful validation stores calendar date 1, while the UTC
calendar date of that instant is 0 — the code stamps date.today, the
host-local date, not the UTC date. -/
theorem quota_date_utc_counterexample :
    (get_api_key (some "K") none [⟨"K", 0, none, 0⟩] 84600 3600).1 =
      Except.ok ⟨"K", 0, some 1, 1⟩ ∧
    some (1 : Int) ≠ some (utcToday 84600) :=
  ⟨rfl, by decide⟩

/-- C4 amended: the calendar date compared against and stored into
lastRequestDate is the host-local calendar date, so the daily quota resets
at host-local midnight and depends on the host timezone; it coincides with
the UTC date only when the offset does not carry the instant across
midnight. -/
theorem quota_date_local_spec :
    ∀ (hk qk : Option String) (db : KeyStore) (now tz : Int) (r2 : APIKey)
      (db2 : KeyStore),
      get_api_key hk qk db now tz = (Except.ok r2, db2) →
      r2.last_request_date = some (localToday now tz) := by
  intro hk qk db now tz r2 db2 hres
  rw [get_api_key] at hres
  rcases hsel : pyOr hk qk with _ | k
  · rw [hsel, validate_none] at hres
    simp at hres
  · rw [hsel] at hres
    by_cases hk0 : k = ""
    · subst hk0
      rw [validate_empty] at hres
      simp at hres
    · cases hfind : db.find? (keyMatches k) with
      | none =>
        rw [validate_invalid k db now tz hk0 hfind] at hres
        simp at hres
      | some r =>
        by_cases hexp : now > r.created_at + (KEY_EXPIRATION_DAYS : Int) * secondsPerDay
        · rw [validate_expired k db now tz r hk0 hfind hexp] at hres
          simp at hres
        · by_cases hday : r.last_request_date = some (localToday now tz)
          · by_cases hcnt : r.request_count_today ≥ DAILY_REQUEST_LIMIT
            · rw [validate_quota k db now tz r hk0 hfind hexp hday hcnt] at hres
              simp at hres
            · rw [validate_increment k db now tz r hk0 hfind hexp hday (by omega)] at hres
              have h2 : Except.ok { r with request_count_today := r.request_count_today + 1 } =
                  Except.ok r2 := congrArg Prod.fst hres
              rw [← Except.ok.inj h2]
              exact hday
          · rw [validate_new_day k db now tz r hk0 hfind hexp hday] at hres
            have h2 : Except.ok { r with last_request_date := some (localToday now tz),
                                          request_count_today := 1 } =
                Except.ok r2 := congrArg Prod.fst hres
            rw [← Except.ok.inj h2]

/-- Witness for the amended C4 at the counterexample instant. -/
theorem quota_date_local_spec_witness :
    (⟨"K", 0, some 1, 1⟩ : APIKey).last_request_date = some (localToday 84600 3600) :=
  quota_date_local_spec (some "K") none [⟨"K", 0, none, 0⟩] 84600 3600
    ⟨"K", 0, some 1, 1⟩
    (replaceFirst (keyMatches "K") ⟨"K", 0, some 1, 1⟩ [⟨"K", 0, none, 0⟩]) rfl

/-- C7: the store committed by the gated ask endpoint is always exactly the
store committed by validation — the downstream call, whether it succeeds or
raises, never changes or rolls back the quota bookkeeping; a downstream
failure after an accepted request leaves the incremented record committed. -/
theorem quota_commit_order_spec :
    (∀ (q : String) (hk qk : Option String) (db : KeyStore) (now tz : Int)
      (f : String → Except String String),
      (ask_zeus_ai q hk qk db now tz f).2 = (get_api_key hk qk db now tz).2) ∧
    (∀ (q : String) (hk qk : Option String) (db : KeyStore) (now tz : Int)
      (f : String → Except String String) (r : APIKey) (db2 : KeyStore) (e : String),
      get_api_key hk qk db now tz = (Except.ok r, db2) →
      f q = Except.error e →
      ask_zeus_ai q hk qk db now tz f =
        (Except.error ⟨500, "An error occurred: " ++ e⟩, db2)) := by
  constructor
  · intro q hk qk db now tz f
    simp only [ask_zeus_ai]
    rcases hga : get_api_key hk qk db now tz with ⟨res, db2⟩
    cases res with
    | error e => rfl
    | ok r =>
      cases hf : f q with
      | ok s => rfl
      | error e => rfl
  · intro q hk qk db now tz f r db2 e hga hf
    simp only [ask_zeus_ai, hga, hf]

/-- Witness for C7: a failing downstream call still leaves the incremented
record committed in the returned store. -/
theorem quota_commit_order_spec_witness :
    (ask_zeus_ai "hi" (some "K") none [⟨"K", 0, none, 0⟩] 0 0
        (fun _ => Except.error "boom")).2 =
      (get_api_key (some "K") none [⟨"K", 0, none, 0⟩] 0 0).2 ∧
    ask_zeus_ai "hi" (some "K") none [⟨"K", 0, none, 0⟩] 0 0
        (fun _ => Except.error "boom") =
      (Except.error ⟨500, "An error occurred: " ++ "boom"⟩,
       replaceFirst (keyMatches "K") ⟨"K", 0, some 0, 1⟩ [⟨"K", 0, none, 0⟩]) :=
  ⟨quota_commit_order_spec.1 "hi" (some "K") none [⟨"K", 0, none, 0⟩] 0 0 _,
   quota_commit_order_spec.2 "hi" (some "K") none [⟨"K", 0, none, 0⟩] 0 0 _
     ⟨"K", 0, some 0, 1⟩
     (replaceFirst (keyMatches "K") ⟨"K", 0, some 0, 1⟩ [⟨"K", 0, none, 0⟩])
     "boom" rfl rfl⟩

/-- C8: in the gated endpoint, a request that passes validation but whose
downstream call raises yields a 500 whose detail is the fixed prefix
followed by the raw error string — the raw text is embedded, not masked. -/
theorem gated_error_leak_spec :
    ∀ (q : String) (hk qk : Option String) (db : KeyStore) (now tz : Int)
      (f : String → Except String String) (r : APIKey) (db2 : KeyStore) (e : String),
      get_api_key hk qk db now tz = (Except.ok r, db2) →
      f q = Except.error e →
      (ask_zeus_ai q hk qk db now tz f).1 =
        Except.error ⟨500, "An error occurred: " ++ e⟩ ∧
      ∃ p : String, "An error occurred: " ++ e = p ++ e := by
  intro q hk qk db now tz f r db2 e hga hf
  constructor
  · simp only [ask_zeus_ai, hga, hf]
  · exact ⟨"An error occurred: ", rfl⟩

/-- Witness for C8 with a concrete raised error string. -/
theorem gated_error_leak_spec_witness :
    (ask_zeus_ai "q" (some "Z") none [⟨"Z", 5, some 0, 7⟩] 9 0
        (fun _ => Except.error "timeout from provider")).1 =
      Except.error ⟨500, "An error occurred: " ++ "timeout from provider"⟩ ∧
    ∃ p : String, "An error occurred: " ++ "timeout from provider" =
      p ++ "timeout from provider" :=
  gated_error_leak_spec "q" (some "Z") none [⟨"Z", 5, some 0, 7⟩] 9 0 _
    ⟨"Z", 5, some 0, 8⟩
    (replaceFirst (keyMatches "Z") ⟨"Z", 5, some 0, 8⟩ [⟨"Z", 5, some 0, 7⟩])
    "timeout from provider" rfl rfl

/-- C6: issuance mints the token by base64url-encoding the 32 secure random
bytes — a 43-character URL-safe string, and an injective image of the bytes,
so all 256 bits of entropy survive — appends exactly one fresh record with
created_at = now, a null last_request_date and a zero counter, and returns
that token with the 30-day expiry notice; the store changes in no other way. -/
theorem issue_key_spec :
    ∀ (bytes : List Nat) (now : Int) (db : KeyStore),
      bytes.length = 32 → (∀ b ∈ bytes, b < 256) →
      (create_api_key bytes now db).2 =
        db ++ [⟨secrets_token_urlsafe bytes, now, none, 0⟩] ∧
      (create_api_key bytes now db).1.api_key = secrets_token_urlsafe bytes ∧
      (create_api_key bytes now db).1.detail =
        "Key created successfully. It will expire in 30 days." ∧
      (secrets_token_urlsafe bytes).length = 43 ∧
      (∀ c ∈ (secrets_token_urlsafe bytes).data, c ∈ b64Alphabet) ∧
      (∀ bytes2, bytes2.length = 32 → (∀ b ∈ bytes2, b < 256) →
        secrets_token_urlsafe bytes2 = secrets_token_urlsafe bytes →
        bytes2 = bytes) := by
  intro bytes now db hlen hbnd
  refine ⟨rfl, rfl, rfl, ?_, ?_, ?_⟩
  · show (encodeB64url bytes).length = 43
    rw [encodeB64url_length, hlen]
  · exact encodeB64url_chars bytes hbnd
  · intro bytes2 hlen2 hbnd2 heq
    have h2 : encodeB64url bytes2 = encodeB64url bytes := congrArg String.data heq
    have h3 := decodeB64url_encodeB64url bytes2 hbnd2
    rw [h2, decodeB64url_encodeB64url bytes hbnd] at h3
    exact h3.symm

/-- Witness for C6 at the all-zero 32-byte draw. -/
theorem issue_key_spec_witness :
    (create_api_key (List.replicate 32 0) 77 []).2 =
      [] ++ [⟨secrets_token_urlsafe (List.replicate 32 0), 77, none, 0⟩] ∧
    (create_api_key (List.replicate 32 0) 77 []).1.api_key =
      secrets_token_urlsafe (List.replicate 32 0) ∧
    (create_api_key (List.replicate 32 0) 77 []).1.detail =
      "Key created successfully. It will expire in 30 days." ∧
    (secrets_token_urlsafe (List.replicate 32 0)).length = 43 ∧
    (∀ c ∈ (secrets_token_urlsafe (List.replicate 32 0)).data, c ∈ b64Alphabet) ∧
    (∀ bytes2, bytes2.length = 32 → (∀ b ∈ bytes2, b < 256) →
      secrets_token_urlsafe bytes2 = secrets_token_urlsafe (List.replicate 32 0) →
      bytes2 = List.replicate 32 0) :=
  issue_key_spec (List.replicate 32 0) 77 [] (by decide) (by decide)

/-- Records matching one key never match a different key. -/
theorem keyMatches_disjoint (k k2 : String) (h : k2 ≠ k) :
    ∀ a : APIKey, keyMatches k2 a = true → keyMatches k a = false := by
  intro a ha
  have h2 : a.key = k2 := eq_of_beq ha
  show (a.key == k) = false
  rw [h2]
  exact beq_eq_false_iff_ne.mpr h

/-- C10: a successful validation commits a record carrying today as its
stored date and a counter between 1 and the daily limit, with key and
created_at unchanged and the record findable in the committed store; any
further validation call on the same host-local day keeps that invariant for
the record as long as it remains stored, never touching key or created_at. -/
theorem validated_invariant_spec :
    ∀ (k : String) (db : KeyStore) (now tz : Int) (r r2 : APIKey) (db2 : KeyStore),
      uniqueKeys db →
      db.find? (keyMatches k) = some r →
      get_api_key (some k) none db now tz = (Except.ok r2, db2) →
      (r2.key = r.key ∧ r2.created_at = r.created_at ∧
       r2.last_request_date = some (localToday now tz) ∧
       1 ≤ r2.request_count_today ∧ r2.request_count_today ≤ DAILY_REQUEST_LIMIT ∧
       db2.find? (keyMatches k) = some r2 ∧ uniqueKeys db2) ∧
      (∀ (db3 : KeyStore) (r3 : APIKey) (hk2 qk2 : Option String) (now2 : Int),
        uniqueKeys db3 →
        db3.find? (keyMatches k) = some r3 →
        r3.last_request_date = some (localToday now tz) →
        1 ≤ r3.request_count_today →
        r3.request_count_today ≤ DAILY_REQUEST_LIMIT →
        localToday now2 tz = localToday now tz →
        ∀ r4, ((get_api_key hk2 qk2 db3 now2 tz).2).find? (keyMatches k) = some r4 →
          r4.key = r3.key ∧ r4.created_at = r3.created_at ∧
          r4.last_request_date = some (localToday now tz) ∧
          1 ≤ r4.request_count_today ∧
          r4.request_count_today ≤ DAILY_REQUEST_LIMIT) := by
  intro k db now tz r r2 db2 hu hfind hres
  have hkm : keyMatches k r = true := List.find?_some hfind
  have hkey : r.key = k := eq_of_beq hkm
  constructor
  · rw [get_api_key] at hres
    by_cases hk0 : k = ""
    · subst hk0
      rw [show pyOr (some "") none = none from rfl, validate_none] at hres
      simp at hres
    · rw [pyOr_truthy _ _ (truthy_some k hk0)] at hres
      by_cases hexp : now > r.created_at + (KEY_EXPIRATION_DAYS : Int) * secondsPerDay
      · rw [validate_expired k db now tz r hk0 hfind hexp] at hres
        simp at hres
      · by_cases hday : r.last_request_date = some (localToday now tz)
        · by_cases hcnt : r.request_count_today ≥ DAILY_REQUEST_LIMIT
          · rw [validate_quota k db now tz r hk0 hfind hexp hday hcnt] at hres
            simp at hres
          · rw [validate_increment k db now tz r hk0 hfind hexp hday (by omega)] at hres
            have hok : Except.ok { r with request_count_today := r.request_count_today + 1 } =
                Except.ok r2 := congrArg Prod.fst hres
            have hr2 : r2 = { r with request_count_today := r.request_count_today + 1 } :=
              (Except.ok.inj hok).symm
            have hdb2 : db2 = replaceFirst (keyMatches k)
                { r with request_count_today := r.request_count_today + 1 } db :=
              (congrArg Prod.snd hres).symm
            subst hr2
            subst hdb2
            refine ⟨rfl, rfl, hday,
              by show 1 ≤ r.request_count_today + 1; omega,
              by show r.request_count_today + 1 ≤ DAILY_REQUEST_LIMIT; omega, ?_, ?_⟩
            · exact find?_replaceFirst_pos (keyMatches k)
                { r with request_count_today := r.request_count_today + 1 }
                hkm db (by rw [hfind]; rfl)
            · exact uniqueKeys_replaceFirst k
                { r with request_count_today := r.request_count_today + 1 }
                hkey db hu
        · rw [validate_new_day k db now tz r hk0 hfind hexp hday] at hres
          have hok : Except.ok { r with last_request_date := some (localToday now tz),
                                        request_count_today := 1 } =
              Except.ok r2 := congrArg Prod.fst hres
          have hr2 : r2 = { r with last_request_date := some (localToday now tz),
                                   request_count_today := 1 } :=
            (Except.ok.inj hok).symm
          have hdb2 : db2 = replaceFirst (keyMatches k)
              { r with last_request_date := some (localToday now tz),
                       request_count_today := 1 } db :=
            (congrArg Prod.snd hres).symm
          subst hr2
          subst hdb2
          refine ⟨rfl, rfl, rfl, le_refl 1,
            by show 1 ≤ DAILY_REQUEST_LIMIT; decide, ?_, ?_⟩
          · exact find?_replaceFirst_pos (keyMatches k)
              { r with last_request_date := some (localToday now tz),
                       request_count_today := 1 }
              hkm db (by rw [hfind]; rfl)
          · exact uniqueKeys_replaceFirst k
              { r with last_request_date := some (localToday now tz),
                       request_count_today := 1 }
              hkey db hu
  · intro db3 r3 hk2 qk2 now2 hu3 hfind3 hdate3 hlo3 hhi3 hsame r4 hfind4
    have hkm3 : keyMatches k r3 = true := List.find?_some hfind3
    rw [get_api_key] at hfind4
    rcases hsel : pyOr hk2 qk2 with _ | k2
    · rw [hsel, validate_none] at hfind4
      have hfind4b : db3.find? (keyMatches k) = some r4 := hfind4
      rw [hfind3] at hfind4b
      obtain rfl : r4 = r3 := (Option.some.inj hfind4b).symm
      exact ⟨rfl, rfl, hdate3, hlo3, hhi3⟩
    · rw [hsel] at hfind4
      by_cases hk20 : k2 = ""
      · subst hk20
        rw [validate_empty] at hfind4
        have hfind4b : db3.find? (keyMatches k) = some r4 := hfind4
        rw [hfind3] at hfind4b
        obtain rfl : r4 = r3 := (Option.some.inj hfind4b).symm
        exact ⟨rfl, rfl, hdate3, hlo3, hhi3⟩
      · cases hfindf : db3.find? (keyMatches k2) with
        | none =>
          rw [validate_invalid k2 db3 now2 tz hk20 hfindf] at hfind4
          have hfind4b : db3.find? (keyMatches k) = some r4 := hfind4
          rw [hfind3] at hfind4b
          obtain rfl : r4 = r3 := (Option.some.inj hfind4b).symm
          exact ⟨rfl, rfl, hdate3, hlo3, hhi3⟩
        | some f =>
          by_cases hexp2 : now2 > f.created_at + (KEY_EXPIRATION_DAYS : Int) * secondsPerDay
          · rw [validate_expired k2 db3 now2 tz f hk20 hfindf hexp2] at hfind4
            have hfind4b : (eraseFirst (keyMatches k2) db3).find? (keyMatches k) =
                some r4 := hfind4
            by_cases hkk : k2 = k
            · subst hkk
              rw [find?_eraseFirst_self (keyMatches k2) db3
                (uniqueKeys_pairwise_not_both k2 db3 hu3)] at hfind4b
              exact Option.noConfusion hfind4b
            · rw [find?_eraseFirst_frame (keyMatches k2) (keyMatches k)
                (keyMatches_disjoint k k2 hkk) db3, hfind3] at hfind4b
              obtain rfl : r4 = r3 := (Option.some.inj hfind4b).symm
              exact ⟨rfl, rfl, hdate3, hlo3, hhi3⟩
          · by_cases hday2 : f.last_request_date = some (localToday now2 tz)
            · by_cases hcnt2 : f.request_count_today ≥ DAILY_REQUEST_LIMIT
              · rw [validate_quota k2 db3 now2 tz f hk20 hfindf hexp2 hday2 hcnt2] at hfind4
                have hfind4b : db3.find? (keyMatches k) = some r4 := hfind4
                rw [hfind3] at hfind4b
                obtain rfl : r4 = r3 := (Option.some.inj hfind4b).symm
                exact ⟨rfl, rfl, hdate3, hlo3, hhi3⟩
              · rw [validate_increment k2 db3 now2 tz f hk20 hfindf hexp2 hday2
                  (by omega)] at hfind4
                have hfind4b : (replaceFirst (keyMatches k2)
                    { f with request_count_today := f.request_count_today + 1 }
                    db3).find? (keyMatches k) = some r4 := hfind4
                by_cases hkk : k2 = k
                · subst hkk
                  have hf3 : f = r3 := by
                    rw [hfindf] at hfind3
                    exact Option.some.inj hfind3
                  subst hf3
                  rw [find?_replaceFirst_pos (keyMatches k2)
                    { f with request_count_today := f.request_count_today + 1 }
                    (show keyMatches k2 f = true from List.find?_some hfindf)
                    db3 (by rw [hfindf]; rfl)] at hfind4b
                  obtain rfl : r4 = { f with request_count_today := f.request_count_today + 1 } :=
                    (Option.some.inj hfind4b).symm
                  refine ⟨rfl, rfl, ?_,
                    by show 1 ≤ f.request_count_today + 1; omega,
                    by show f.request_count_today + 1 ≤ DAILY_REQUEST_LIMIT; omega⟩
                  show f.last_request_date = some (localToday now tz)
                  exact hdate3
                · rw [find?_replaceFirst_frame (keyMatches k2) (keyMatches k)
                    { f with request_count_today := f.request_count_today + 1 }
                    (keyMatches_disjoint k k2 hkk
                      { f with request_count_today := f.request_count_today + 1 }
                      (show keyMatches k2 f = true from List.find?_some hfindf))
                    (keyMatches_disjoint k k2 hkk) db3, hfind3] at hfind4b
                  obtain rfl : r4 = r3 := (Option.some.inj hfind4b).symm
                  exact ⟨rfl, rfl, hdate3, hlo3, hhi3⟩
            · by_cases hkk : k2 = k
              · subst hkk
                have hf3 : f = r3 := by
                  rw [hfindf] at hfind3
                  exact Option.some.inj hfind3
                subst hf3
                exact absurd (by rw [hdate3, hsame]) hday2
              · rw [validate_new_day k2 db3 now2 tz f hk20 hfindf hexp2 hday2] at hfind4
                have hfind4b : (replaceFirst (keyMatches k2)
                    { f with last_request_date := some (localToday now2 tz),
                             request_count_today := 1 }
                    db3).find? (keyMatches k) = some r4 := hfind4
                rw [find?_replaceFirst_frame (keyMatches k2) (keyMatches k)
                  { f with last_request_date := some (localToday now2 tz),
                           request_count_today := 1 }
                  (keyMatches_disjoint k k2 hkk
                    { f with last_request_date := some (localToday now2 tz),
                             request_count_today := 1 }
                    (show keyMatches k2 f = true from List.find?_some hfindf))
                  (keyMatches_disjoint k k2 hkk) db3, hfind3] at hfind4b
                obtain rfl : r4 = r3 := (Option.some.inj hfind4b).symm
                exact ⟨rfl, rfl, hdate3, hlo3, hhi3⟩

/-- Witness for C10: a first successful call on a fresh record, followed by
a same-day call that increments the counter to 2 with everything else
unchanged. -/
theorem validated_invariant_spec_witness :
    ((⟨"K", 0, some 0, 1⟩ : APIKey).key = (⟨"K", 0, none, 0⟩ : APIKey).key ∧
     (⟨"K", 0, some 0, 1⟩ : APIKey).created_at = (⟨"K", 0, none, 0⟩ : APIKey).created_at ∧
     (⟨"K", 0, some 0, 1⟩ : APIKey).last_request_date = some (localToday 0 0) ∧
     1 ≤ (⟨"K", 0, some 0, 1⟩ : APIKey).request_count_today ∧
     (⟨"K", 0, some 0, 1⟩ : APIKey).request_count_today ≤ DAILY_REQUEST_LIMIT ∧
     (replaceFirst (keyMatches "K") ⟨"K", 0, some 0, 1⟩ [⟨"K", 0, none, 0⟩]).find?
        (keyMatches "K") = some ⟨"K", 0, some 0, 1⟩ ∧
     uniqueKeys (replaceFirst (keyMatches "K") ⟨"K", 0, some 0, 1⟩ [⟨"K", 0, none, 0⟩])) ∧
    ((⟨"K", 0, some 0, 2⟩ : APIKey).key = (⟨"K", 0, some 0, 1⟩ : APIKey).key ∧
     (⟨"K", 0, some 0, 2⟩ : APIKey).created_at = (⟨"K", 0, some 0, 1⟩ : APIKey).created_at ∧
     (⟨"K", 0, some 0, 2⟩ : APIKey).last_request_date = some (localToday 0 0) ∧
     1 ≤ (⟨"K", 0, some 0, 2⟩ : APIKey).request_count_today ∧
     (⟨"K", 0, some 0, 2⟩ : APIKey).request_count_today ≤ DAILY_REQUEST_LIMIT) :=
  have h := validated_invariant_spec "K" [⟨"K", 0, none, 0⟩] 0 0 ⟨"K", 0, none, 0⟩
    ⟨"K", 0, some 0, 1⟩
    (replaceFirst (keyMatches "K") ⟨"K", 0, some 0, 1⟩ [⟨"K", 0, none, 0⟩])
    (by simp [uniqueKeys]) rfl rfl
  ⟨h.1, h.2 [⟨"K", 0, some 0, 1⟩] ⟨"K", 0, some 0, 1⟩ (some "K") none 5
    (by simp [uniqueKeys]) rfl rfl (le_refl 1) (by decide) rfl
    ⟨"K", 0, some 0, 2⟩ rfl⟩
